import Mathlib

/-!
Verification of the call-interception proxy core (src/wrapt/wrappers.py).

The embedding models the host values the proxy code manipulates, the anchor
computation of WrapperBase.__init__, the equality, hashing and attribute
protocols of WrapperBase, and the call paths of FunctionWrapper,
GenericWrapper, BoundGenericWrapper and BoundMethodWrapper. The interception
callback is left abstract: each call path is modelled as the invocation record
it would hand to the callback, or the failure it raises before reaching it.
-/

namespace Wrapt

/-- Result of the host equality operation: a decided boolean, or the
NotImplemented sentinel returned when the comparison is undecided. -/
inductive EqResult where
  | b : Bool → EqResult
  | notImplemented : EqResult
  deriving DecidableEq, Repr

/-- Host values: the None object; plain entities carrying an identifier and a
flag recording whether the entity is a classmethod or staticmethod object;
entities that additionally carry a wrapped-chain attribute; entities whose
equality operation is undecided against everything; the partial applications
produced by functools; and proxy objects holding their stored wrapped object
and their stored identity anchor. -/
inductive Value : Type where
  | none : Value
  | obj (id : Nat) (isClsOrStatic : Bool) : Value
  | objW (id : Nat) (isClsOrStatic : Bool) (wrappedAttr : Value) : Value
  | weird (id : Nat) : Value
  | partApp (f : Value) (arg : Value) : Value
  | proxy (wrapped : Value) (target : Value) : Value
  deriving DecidableEq, Repr

/-- Reading the attribute named "__wrapped__" from a value: a proxy exposes
its stored identity anchor through the read-only property of WrapperBase
(lines 103 to 105), an entity carrying the wrapped-chain attribute yields it,
and every other value raises AttributeError, modelled as Option.none. -/
def getWrappedAttr : Value → Option Value
  | .objW _ _ w => some w
  | .proxy _ t => some t
  | _ => Option.none

/-- Lines 51 to 57 of WrapperBase.__init__: with no adapter the identity
anchor is the wrapped-chain attribute of the wrapped object when present,
else the wrapped object itself; a caller-supplied adapter overrides that
resolution. The host default None for the adapter parameter is Value.none. -/
def computeTarget (wrapped adapter : Value) : Value :=
  if adapter = Value.none then
    match getWrappedAttr wrapped with
    | some t => t
    | Option.none => wrapped
  else adapter

/-- Constructing a WrapperBase proxy around a value with no adapter. -/
def wrap (wrapped : Value) : Value :=
  Value.proxy wrapped (computeTarget wrapped Value.none)

/-- Iterated wrapping: wrap the entity, then wrap the resulting proxy again,
each layer built with no adapter. -/
def iterWrap (f : Value) : Nat → Value
  | 0 => f
  | n + 1 => wrap (iterWrap f n)

/-- The host equality operation as the source relies on it: a proxy delegates
equality to its stored identity anchor (WrapperBase.__eq__ on lines 117 to
118 returns the comparison of the stored target with the other operand),
comparison involving an incomparable value is undecided (the NotImplemented
sentinel), and all other values compare by identity. -/
def pyEq : Value → Value → EqResult
  | .weird _, _ => .notImplemented
  | _, .weird _ => .notImplemented
  | .proxy _ t, x => pyEq t x
  | v, x => .b (decide (v = x))

/-- The host hash operation: WrapperBase.__hash__ on lines 126 to 127 returns
the hash of the stored identity anchor; the other values hash by structure,
standing in for the identity-based host hash under which distinct entities
hash apart. -/
def pyHash : Value → Nat
  | .none => 0
  | .obj i _ => 2 * i + 1
  | .objW i _ w => 2 * (i + pyHash w) + 2
  | .weird i => 2 * i + 3
  | .partApp f a => pyHash f + pyHash a + 4
  | .proxy _ t => pyHash t

/-- WrapperBase.__eq__ lines 117 to 118: the equality method returns the
value of comparing the stored target with the other operand. -/
def wrapperEq (target other : Value) : EqResult :=
  pyEq target other

/-- WrapperBase.__ne__ lines 120 to 124: call the equality method, pass the
NotImplemented sentinel through unchanged, and negate a decided result. -/
def wrapperNe (target other : Value) : EqResult :=
  match wrapperEq target other with
  | .notImplemented => .notImplemented
  | .b r => .b (!r)

/-- The isinstance check against (classmethod, staticmethod) on lines 190 to
191: a proxy answers through the overridden dynamic-class property of
WrapperBase (lines 87 to 89), which reports the class of the stored wrapped
object, so the check sees through layers of proxies; plain entities report
the declared kind of the original pre-wrap entity. -/
def isClassOrStaticMethod : Value → Bool
  | .obj _ b => b
  | .objW _ b _ => b
  | .proxy w _ => isClassOrStaticMethod w
  | _ => false

/-- Keyword arguments and configuration entries, as name-value lists. -/
abbrev Kwargs := List (String × Value)

/-- Configuration entries forwarded to every callback invocation. -/
abbrev Params := List (String × Value)

/-- The interception callback invocation a call path produces. The two
constructors record the two callback arglists found in the source: the
four-argument shape (wrapped, instance, args, kwargs) used by the generic and
method wrappers, and the three-argument shape (wrapped, args, kwargs) used by
FunctionWrapper; in either shape the configuration entries are expanded as
extra keyword arguments. -/
inductive Invocation where
  | withInstance (wrapped inst : Value) (args : List Value) (kwargs : Kwargs)
      (params : Params) : Invocation
  | noInstance (wrapped : Value) (args : List Value) (kwargs : Kwargs)
      (params : Params) : Invocation
  deriving DecidableEq, Repr

/-- Failures raised on a call path before the interception callback is
reached. -/
inductive CallError where
  | indexError : CallError
  deriving DecidableEq, Repr

/-- GenericWrapper: the stored wrapped object, the stored identity anchor and
the configuration; the interception callback itself stays abstract, so only
the invocation built for it is recorded. -/
structure GenericWrapper where
  wrapped : Value
  target : Value
  params : Params
  deriving DecidableEq, Repr

/-- BoundGenericWrapper: the parent generic wrapper, the bound callable the
host binding mechanism produced, the access-time instance (Value.none when
absent), the stored identity anchor and the configuration. -/
structure BoundGenericWrapper where
  parent : GenericWrapper
  wrapped : Value
  inst : Value
  target : Value
  params : Params
  deriving DecidableEq, Repr

/-- MethodWrapper: same stored state as GenericWrapper. -/
structure MethodWrapper where
  wrapped : Value
  target : Value
  params : Params
  deriving DecidableEq, Repr

/-- BoundMethodWrapper: the bound callable, the access-time instance
(Value.none when absent), the stored identity anchor and the configuration;
it keeps no parent reference. -/
structure BoundMethodWrapper where
  wrapped : Value
  inst : Value
  target : Value
  params : Params
  deriving DecidableEq, Repr

/-- FunctionWrapper: the stored wrapped object, the stored identity anchor
and the configuration. -/
structure FunctionWrapper where
  wrapped : Value
  target : Value
  params : Params
  deriving DecidableEq, Repr

/-- BoundGenericWrapper.__call__ lines 150 to 205. When the access-time
instance is absent and the original pre-wrap entity of the parent is neither
a classmethod nor a staticmethod object, the first positional argument is
taken as the implicit receiver: the argument list is split, the wrapped
callable is partially applied to the receiver, and the callback is invoked
with the shifted arguments; with no positional argument the subscript raises
IndexError before the callback is reached. When the original entity is a
classmethod or staticmethod object, the callback is invoked with instance
None and the arguments unchanged. When the instance is present, the callback
is invoked with it and the arguments unchanged. -/
def boundGenericCall (b : BoundGenericWrapper) (args : List Value)
    (kwargs : Kwargs) : Except CallError Invocation :=
  if b.inst = Value.none then
    if isClassOrStaticMethod b.parent.wrapped then
      Except.ok (Invocation.withInstance b.wrapped Value.none args kwargs b.params)
    else
      match args with
      | [] => Except.error CallError.indexError
      | a :: rest =>
          Except.ok (Invocation.withInstance (Value.partApp b.wrapped a) a rest
            kwargs b.params)
  else
    Except.ok (Invocation.withInstance b.wrapped b.inst args kwargs b.params)

/-- BoundMethodWrapper.__call__ lines 243 to 259: like the bound generic call
with an absent instance, but with no classmethod or staticmethod check, so
the first positional argument is always taken as the implicit receiver when
the instance is absent. -/
def boundMethodCall (b : BoundMethodWrapper) (args : List Value)
    (kwargs : Kwargs) : Except CallError Invocation :=
  if b.inst = Value.none then
    match args with
    | [] => Except.error CallError.indexError
    | a :: rest =>
        Except.ok (Invocation.withInstance (Value.partApp b.wrapped a) a rest
          kwargs b.params)
  else
    Except.ok (Invocation.withInstance b.wrapped b.inst args kwargs b.params)

/-- GenericWrapper.__call__ lines 217 to 225: a direct call with no binding
invokes the callback with instance None and the arguments unchanged. -/
def genericWrapperCall (g : GenericWrapper) (args : List Value)
    (kwargs : Kwargs) : Invocation :=
  Invocation.withInstance g.wrapped Value.none args kwargs g.params

/-- FunctionWrapper.__call__ lines 231 to 233: the three-argument callback
arglist (wrapped, args, kwargs); no receiver argument is passed. -/
def functionWrapperCall (f : FunctionWrapper) (args : List Value)
    (kwargs : Kwargs) : Invocation :=
  Invocation.noInstance f.wrapped args kwargs f.params

/-- GenericWrapper.__get__ lines 211 to 215: builds a BoundGenericWrapper,
passing the stored anchor of the parent as the adapter; the bound callable
produced by the host binding mechanism is a parameter. -/
def genericWrapperGet (g : GenericWrapper) (descriptor inst : Value) :
    BoundGenericWrapper :=
  ⟨g, descriptor, inst, computeTarget descriptor g.target, g.params⟩

/-- MethodWrapper.__get__ lines 265 to 269: builds a BoundMethodWrapper,
passing the stored anchor as the adapter. -/
def methodWrapperGet (m : MethodWrapper) (descriptor inst : Value) :
    BoundMethodWrapper :=
  ⟨descriptor, inst, computeTarget descriptor m.target, m.params⟩

/-- Attribute dictionaries as association lists. -/
abbrev Attrs := List (String × Value)

/-- Attribute lookup: the first entry with the given name, Option.none for
AttributeError. -/
def lookupAttr : Attrs → String → Option Value
  | [], _ => Option.none
  | (k, v) :: rest, n => if k = n then some v else lookupAttr rest n

/-- Attribute store: replace the entry with the given name, or append it. -/
def setAttrEntry : Attrs → String → Value → Attrs
  | [], n, v => [(n, v)]
  | (k, w) :: rest, n, v =>
      if k = n then (n, v) :: rest else (k, w) :: setAttrEntry rest n v

/-- Reading the annotation mapping through the proxy. The property getter on
lines 95 to 97 reads the misspelled attribute named "__anotations__" from the
wrapped object; when that lookup raises AttributeError the host attribute
machinery falls back to WrapperBase.__getattr__ (lines 84 to 85), which
forwards the correctly spelled name to the wrapped object. -/
def readAnnotations (targetAttrs : Attrs) : Option Value :=
  match lookupAttr targetAttrs "__anotations__" with
  | some v => some v
  | Option.none => lookupAttr targetAttrs "__annotations__"

/-- Writing the annotation mapping through the proxy: the property setter on
lines 99 to 101 stores to the correctly spelled attribute of the wrapped
object. -/
def writeAnnotations (targetAttrs : Attrs) (v : Value) : Attrs :=
  setAttrEntry targetAttrs "__annotations__" v

/-- The two attribute stores WrapperBase.__setattr__ can touch: the instance
dictionary of the proxy itself and the attributes of the wrapped object. -/
structure AttrState where
  selfAttrs : Attrs
  wrappedAttrs : Attrs
  deriving DecidableEq, Repr

/-- The startswith test of the host string type, evaluated on the character
lists of the two strings. -/
def strStartsWith (s pre : String) : Bool :=
  pre.data.isPrefixOf s.data

/-- WrapperBase.__setattr__ lines 78 to 82: a name in the reserved internal
namespace (names starting with "_self_") is stored on the proxy itself, and
every other name is forwarded to the wrapped object. -/
def wrapperSetattr (s : AttrState) (name : String) (v : Value) : AttrState :=
  if strStartsWith name "_self_" then
    ⟨setAttrEntry s.selfAttrs name v, s.wrappedAttrs⟩
  else
    ⟨s.selfAttrs, setAttrEntry s.wrappedAttrs name v⟩

/-- Sample parent wrapping a plain entity, for concrete evaluations. -/
def parentPlain : GenericWrapper := ⟨Value.obj 0 false, Value.obj 0 false, []⟩

/-- Sample parent wrapping a classmethod or staticmethod object. -/
def parentClsStatic : GenericWrapper := ⟨Value.obj 0 true, Value.obj 0 true, []⟩

/-- Sample bound generic wrapper with an absent instance over a plain parent. -/
def bgPlain : BoundGenericWrapper :=
  ⟨parentPlain, Value.obj 2 false, Value.none, Value.obj 0 false, []⟩

/-- Sample bound generic wrapper with an absent instance over a classmethod
or staticmethod parent. -/
def bgClsStatic : BoundGenericWrapper :=
  ⟨parentClsStatic, Value.obj 2 false, Value.none, Value.obj 0 true, []⟩

/-- Sample bound method wrapper with an absent instance. -/
def bmPlain : BoundMethodWrapper :=
  ⟨Value.obj 2 false, Value.none, Value.obj 0 false, []⟩

/-- Sample function wrapper. -/
def fwSample : FunctionWrapper := ⟨Value.obj 0 false, Value.obj 0 false, []⟩

/-! ## Helper lemmas -/

/-- Comparison with an incomparable value on the right is undecided. -/
theorem pyEq_weird_right (v : Value) (j : Nat) :
    pyEq v (Value.weird j) = EqResult.notImplemented := by
  cases v <;> rfl

/-- A proxy compares exactly as its stored identity anchor does. -/
theorem pyEq_proxy_delegates (w t x : Value) :
    pyEq (Value.proxy w t) x = pyEq t x := by
  cases x <;> simp [pyEq, pyEq_weird_right]

/-- A freshly stored attribute entry is read back. -/
theorem lookupAttr_setAttrEntry (attrs : Attrs) (n : String) (v : Value) :
    lookupAttr (setAttrEntry attrs n v) n = some v := by
  induction attrs with
  | nil => simp [setAttrEntry, lookupAttr]
  | cons kv rest ih =>
    obtain ⟨k, w⟩ := kv
    by_cases h : k = n
    · simp [setAttrEntry, lookupAttr, h]
    · simp [setAttrEntry, lookupAttr, h, ih]

/-- With no adapter and no wrapped-chain attribute, the anchor is the wrapped
object itself. -/
theorem computeTarget_of_no_attr (w : Value) (h : getWrappedAttr w = Option.none) :
    computeTarget w Value.none = w := by
  simp [computeTarget, h]

/-- With no adapter, a wrapped-chain attribute becomes the anchor. -/
theorem computeTarget_of_attr (w t : Value) (h : getWrappedAttr w = some t) :
    computeTarget w Value.none = t := by
  simp [computeTarget, h]

/-- The wrapped-chain pointer of a fresh adapterless proxy is its computed
anchor. -/
theorem getWrappedAttr_wrap (w : Value) :
    getWrappedAttr (wrap w) = some (computeTarget w Value.none) := rfl

/-- Every layer of adapterless wrapping above an entity with no wrapped-chain
attribute anchors at that entity. -/
theorem iterWrap_anchor (f : Value) (hf : getWrappedAttr f = Option.none) :
    ∀ m : Nat, getWrappedAttr (iterWrap f (m + 1)) = some f := by
  intro m
  induction m with
  | zero => simp [iterWrap, getWrappedAttr_wrap, computeTarget_of_no_attr f hf]
  | succ k ih =>
    rw [show iterWrap f (k + 1 + 1) = wrap (iterWrap f (k + 1)) from rfl,
      getWrappedAttr_wrap, computeTarget_of_attr (iterWrap f (k + 1)) f ih]

/-! ## The claims -/

/-- C1: for a bound call through a method or generic proxy with an absent
instance whose original pre-wrap entity is neither a classmethod nor a
staticmethod object, a nonempty positional argument list is split into
(instance, rest): the interception callback receives the wrapped callable
partially applied to the first argument as the callable, that argument as the
receiver, and the rest as the positional arguments, whose count is exactly
one less than the call-site positional-argument count. -/
theorem claim1_unbound_call_shifts_receiver
    (bg : BoundGenericWrapper) (bm : BoundMethodWrapper)
    (a : Value) (rest : List Value) (kwargs : Kwargs)
    (hg : bg.inst = Value.none)
    (hk : isClassOrStaticMethod bg.parent.wrapped = false)
    (hm : bm.inst = Value.none) :
    boundGenericCall bg (a :: rest) kwargs =
      Except.ok (Invocation.withInstance (Value.partApp bg.wrapped a) a rest
        kwargs bg.params)
    ∧ boundMethodCall bm (a :: rest) kwargs =
      Except.ok (Invocation.withInstance (Value.partApp bm.wrapped a) a rest
        kwargs bm.params)
    ∧ rest.length = (a :: rest).length - 1 := by
  refine ⟨?_, ?_, by simp⟩
  · simp [boundGenericCall, hg, hk]
  · simp [boundMethodCall, hm]

/-- Witness for C1 at concrete bound wrappers and arguments. -/
theorem claim1_witness :
    boundGenericCall bgPlain (Value.obj 5 false :: [Value.obj 6 false]) [] =
      Except.ok (Invocation.withInstance
        (Value.partApp bgPlain.wrapped (Value.obj 5 false)) (Value.obj 5 false)
        [Value.obj 6 false] [] bgPlain.params)
    ∧ boundMethodCall bmPlain (Value.obj 5 false :: [Value.obj 6 false]) [] =
      Except.ok (Invocation.withInstance
        (Value.partApp bmPlain.wrapped (Value.obj 5 false)) (Value.obj 5 false)
        [Value.obj 6 false] [] bmPlain.params)
    ∧ [Value.obj 6 false].length =
        (Value.obj 5 false :: [Value.obj 6 false]).length - 1 :=
  claim1_unbound_call_shifts_receiver bgPlain bmPlain (Value.obj 5 false)
    [Value.obj 6 false] [] rfl rfl rfl

/-- C2: for a bound generic call with an absent instance whose original
pre-wrap entity is a classmethod or staticmethod object, the callback is
invoked with receiver None and the positional arguments unchanged; no first
argument is peeled off. -/
theorem claim2_class_static_passthrough
    (bg : BoundGenericWrapper) (args : List Value) (kwargs : Kwargs)
    (hg : bg.inst = Value.none)
    (hk : isClassOrStaticMethod bg.parent.wrapped = true) :
    boundGenericCall bg args kwargs =
      Except.ok (Invocation.withInstance bg.wrapped Value.none args kwargs
        bg.params) := by
  simp [boundGenericCall, hg, hk]

/-- Witness for C2 at a concrete bound generic wrapper over a classmethod or
staticmethod entity. -/
theorem claim2_witness :
    boundGenericCall bgClsStatic [Value.obj 5 false] [] =
      Except.ok (Invocation.withInstance bgClsStatic.wrapped Value.none
        [Value.obj 5 false] [] bgClsStatic.params) :=
  claim2_class_static_passthrough bgClsStatic [Value.obj 5 false] [] rfl rfl

/-- C3 counterexample: at a concrete plain-function proxy call the callback
invocation has the three-argument shape with no receiver slot, so it is not
the claimed four-argument shape with a null receiver in second position. -/
theorem claim3_counterexample :
    functionWrapperCall fwSample [Value.obj 1 false] [] =
      Invocation.noInstance (Value.obj 0 false) [Value.obj 1 false] [] []
    ∧ functionWrapperCall fwSample [Value.obj 1 false] [] ≠
      Invocation.withInstance (Value.obj 0 false) Value.none
        [Value.obj 1 false] [] [] :=
  ⟨rfl, by decide⟩

/-- C3 amended: every plain-function proxy invocation hands the interception
callback the three-argument shape (Target, positional arguments, keyword
arguments) plus the configuration entries; no receiver argument is passed in
any position. -/
theorem claim3_no_receiver_argument
    (f : FunctionWrapper) (args : List Value) (kwargs : Kwargs) :
    functionWrapperCall f args kwargs =
      Invocation.noInstance f.wrapped args kwargs f.params
    ∧ ∀ w i a k p, functionWrapperCall f args kwargs ≠
        Invocation.withInstance w i a k p := by
  refine ⟨rfl, ?_⟩
  intro w i a k p h
  simp [functionWrapperCall] at h

/-- Witness for C3 at a concrete function wrapper. -/
theorem claim3_witness :
    functionWrapperCall fwSample [] [] =
      Invocation.noInstance fwSample.wrapped [] [] fwSample.params
    ∧ ∀ w i a k p, functionWrapperCall fwSample [] [] ≠
        Invocation.withInstance w i a k p :=
  claim3_no_receiver_argument fwSample [] []

/-- C4 counterexample: for an entity F that itself carries a wrapped-chain
attribute, wrap(F) anchors at the innermost entity, so wrap(F) == F is
decided false and the hashes differ; the particular consequence of the claim
fails for such an F. -/
theorem claim4_counterexample :
    pyEq (wrap (Value.objW 0 false (Value.obj 1 false)))
        (Value.objW 0 false (Value.obj 1 false)) = EqResult.b false
    ∧ pyHash (wrap (Value.objW 0 false (Value.obj 1 false))) ≠
        pyHash (Value.objW 0 false (Value.obj 1 false)) :=
  ⟨by decide, by decide⟩

/-- C4 amended: every proxy compares and hashes exactly as its stored
identity anchor; and for an entity with no wrapped-chain attribute, wrapping
without an adapter anchors at the entity itself, so wrap(F) == F evaluates
exactly as F == F (decided true for ordinary entities) and hash(wrap(F))
equals hash(F). -/
theorem claim4_identity_delegation (w t x f : Value) (i : Nat) (c : Bool)
    (hf : getWrappedAttr f = Option.none) :
    pyEq (Value.proxy w t) x = pyEq t x
    ∧ pyHash (Value.proxy w t) = pyHash t
    ∧ pyEq (wrap f) f = pyEq f f
    ∧ pyHash (wrap f) = pyHash f
    ∧ pyEq (wrap (Value.obj i c)) (Value.obj i c) = EqResult.b true := by
  refine ⟨pyEq_proxy_delegates w t x, rfl, ?_, ?_, ?_⟩
  · simp [wrap, computeTarget, hf, pyEq_proxy_delegates]
  · simp [wrap, computeTarget, hf, pyHash]
  · simp [wrap, computeTarget, getWrappedAttr, pyEq]

/-- Witness for C4 at concrete values. -/
theorem claim4_witness :
    pyEq (Value.proxy (Value.obj 7 false) (Value.obj 8 false)) (Value.obj 8 false) =
      pyEq (Value.obj 8 false) (Value.obj 8 false)
    ∧ pyHash (Value.proxy (Value.obj 7 false) (Value.obj 8 false)) =
        pyHash (Value.obj 8 false)
    ∧ pyEq (wrap (Value.obj 9 false)) (Value.obj 9 false) =
        pyEq (Value.obj 9 false) (Value.obj 9 false)
    ∧ pyHash (wrap (Value.obj 9 false)) = pyHash (Value.obj 9 false)
    ∧ pyEq (wrap (Value.obj 3 false)) (Value.obj 3 false) = EqResult.b true :=
  claim4_identity_delegation (Value.obj 7 false) (Value.obj 8 false)
    (Value.obj 8 false) (Value.obj 9 false) 3 false rfl

/-- C5: for an entity with no wrapped-chain attribute, a chain of one or more
adapterless wraps yields an outermost proxy whose wrapped-chain pointer is
the original entity itself, and no proxy of the chain equals that entity, so
the anchor is never an intermediate proxy. -/
theorem claim5_nested_anchor_collapses (f : Value) (n : Nat)
    (hf : getWrappedAttr f = Option.none) (hn : 1 ≤ n) :
    getWrappedAttr (iterWrap f n) = some f
    ∧ ∀ k, 1 ≤ k → iterWrap f k ≠ f := by
  obtain ⟨m, rfl⟩ : ∃ m, n = m + 1 := ⟨n - 1, (Nat.succ_pred_eq_of_pos hn).symm⟩
  refine ⟨iterWrap_anchor f hf m, ?_⟩
  intro k hk h
  obtain ⟨j, rfl⟩ : ∃ j, k = j + 1 := ⟨k - 1, (Nat.succ_pred_eq_of_pos hk).symm⟩
  have h1 := iterWrap_anchor f hf j
  rw [h, hf] at h1
  exact Option.noConfusion h1

/-- Witness for C5 at a doubly wrapped concrete entity. -/
theorem claim5_witness :
    getWrappedAttr (iterWrap (Value.obj 0 false) 2) = some (Value.obj 0 false)
    ∧ ∀ k, 1 ≤ k → iterWrap (Value.obj 0 false) k ≠ Value.obj 0 false :=
  claim5_nested_anchor_collapses (Value.obj 0 false) 2 rfl (by decide)

/-- C6: the annotation getter of the proxy reads the misspelled attribute
name, so a wrapped object carrying both the misspelled attribute and its real
annotation mapping is read as the misspelled one, while the setter writes the
real one; the read-back of a freshly written mapping succeeds only through
the accidental fallback to the generic attribute forwarding. -/
theorem claim6_annotations_getter_misspelled :
    readAnnotations [("__anotations__", Value.obj 1 false),
        ("__annotations__", Value.obj 2 false)] = some (Value.obj 1 false)
    ∧ lookupAttr [("__anotations__", Value.obj 1 false),
        ("__annotations__", Value.obj 2 false)] "__annotations__" =
        some (Value.obj 2 false)
    ∧ writeAnnotations [] (Value.obj 2 false) =
        [("__annotations__", Value.obj 2 false)]
    ∧ readAnnotations (writeAnnotations [] (Value.obj 2 false)) =
        some (Value.obj 2 false) :=
  ⟨by decide, by decide, by decide, by decide⟩

/-- C7: the inequality method returns the logical negation of the equality
method result, and passes the NotImplemented sentinel through unchanged when
the equality method cannot decide. -/
theorem claim7_ne_negation_propagates_sentinel (t x : Value) :
    (wrapperEq t x = EqResult.notImplemented →
      wrapperNe t x = EqResult.notImplemented)
    ∧ ∀ r : Bool, wrapperEq t x = EqResult.b r →
        wrapperNe t x = EqResult.b (!r) := by
  constructor
  · intro h
    simp [wrapperNe, h]
  · intro r h
    simp [wrapperNe, h]

/-- Witness for C7: an undecided comparison propagates the sentinel, a
decided one is negated. -/
theorem claim7_witness :
    wrapperNe (Value.weird 0) (Value.obj 1 false) = EqResult.notImplemented
    ∧ wrapperNe (Value.obj 1 false) (Value.obj 1 false) = EqResult.b (!true) :=
  ⟨(claim7_ne_negation_propagates_sentinel (Value.weird 0) (Value.obj 1 false)).1
      (by decide),
   (claim7_ne_negation_propagates_sentinel (Value.obj 1 false) (Value.obj 1 false)).2
      true (by decide)⟩

/-- C8: an attribute write of a name in the reserved internal namespace is
stored on the proxy itself and leaves the wrapped object untouched; a write
of any other name is forwarded to the wrapped object and leaves the local
state of the proxy untouched. -/
theorem claim8_setattr_frame (s : AttrState) (name : String) (v : Value) :
    (strStartsWith name "_self_" = true →
      wrapperSetattr s name v = ⟨setAttrEntry s.selfAttrs name v, s.wrappedAttrs⟩
      ∧ lookupAttr (wrapperSetattr s name v).selfAttrs name = some v)
    ∧ (strStartsWith name "_self_" = false →
      wrapperSetattr s name v = ⟨s.selfAttrs, setAttrEntry s.wrappedAttrs name v⟩
      ∧ lookupAttr (wrapperSetattr s name v).wrappedAttrs name = some v) := by
  constructor
  · intro h
    simp [wrapperSetattr, h, lookupAttr_setAttrEntry]
  · intro h
    simp [wrapperSetattr, h, lookupAttr_setAttrEntry]

/-- Witness for C8 at a reserved and a plain attribute name. -/
theorem claim8_witness :
    (wrapperSetattr ⟨[], []⟩ "_self_extra" (Value.obj 1 false) =
      ⟨setAttrEntry [] "_self_extra" (Value.obj 1 false), []⟩
    ∧ lookupAttr (wrapperSetattr ⟨[], []⟩ "_self_extra" (Value.obj 1 false)).selfAttrs
        "_self_extra" = some (Value.obj 1 false))
    ∧ (wrapperSetattr ⟨[], []⟩ "color" (Value.obj 2 false) =
      ⟨[], setAttrEntry [] "color" (Value.obj 2 false)⟩
    ∧ lookupAttr (wrapperSetattr ⟨[], []⟩ "color" (Value.obj 2 false)).wrappedAttrs
        "color" = some (Value.obj 2 false)) :=
  ⟨(claim8_setattr_frame ⟨[], []⟩ "_self_extra" (Value.obj 1 false)).1 (by decide),
   (claim8_setattr_frame ⟨[], []⟩ "color" (Value.obj 2 false)).2 (by decide)⟩

/-- C9 counterexample: when the stored anchor of the parent is the value
None, the constructor treats the passed adapter as absent and recomputes the
anchor from the bound callable, so the bound proxy does not keep the anchor
of its parent. -/
theorem claim9_counterexample :
    (genericWrapperGet ⟨Value.obj 4 false, Value.none, []⟩ (Value.obj 5 false)
        Value.none).target = Value.obj 5 false
    ∧ (⟨Value.obj 4 false, Value.none, []⟩ : GenericWrapper).target = Value.none
    ∧ (genericWrapperGet ⟨Value.obj 4 false, Value.none, []⟩ (Value.obj 5 false)
        Value.none).target ≠
      (⟨Value.obj 4 false, Value.none, []⟩ : GenericWrapper).target :=
  ⟨rfl, rfl, by decide⟩

/-- C9: attribute access on an unbound generic or method proxy passes the
stored anchor of the parent as the adapter, so the bound proxy keeps the same
identity anchor as its parent (whenever that anchor is not the value None,
which the constructor would treat as an absent adapter), and equality and
hashing of the bound proxy report the same innermost entity as the unbound
proxy. -/
theorem claim9_bound_proxy_keeps_anchor
    (g : GenericWrapper) (m : MethodWrapper) (d1 d2 i1 i2 x : Value)
    (hg : g.target ≠ Value.none) (hm : m.target ≠ Value.none) :
    (genericWrapperGet g d1 i1).target = g.target
    ∧ (methodWrapperGet m d2 i2).target = m.target
    ∧ pyEq (Value.proxy d1 (genericWrapperGet g d1 i1).target) x =
        pyEq (Value.proxy g.wrapped g.target) x
    ∧ pyHash (Value.proxy d1 (genericWrapperGet g d1 i1).target) =
        pyHash (Value.proxy g.wrapped g.target) := by
  have h1 : (genericWrapperGet g d1 i1).target = g.target := by
    simp [genericWrapperGet, computeTarget, hg]
  have h2 : (methodWrapperGet m d2 i2).target = m.target := by
    simp [methodWrapperGet, computeTarget, hm]
  refine ⟨h1, h2, ?_, ?_⟩
  · rw [h1, pyEq_proxy_delegates, pyEq_proxy_delegates]
  · rw [h1]
    simp [pyHash]

/-- Witness for C9 at a concrete unbound generic and method proxy. -/
theorem claim9_witness :
    (genericWrapperGet parentPlain (Value.obj 2 false) Value.none).target =
      parentPlain.target
    ∧ (methodWrapperGet ⟨Value.obj 0 false, Value.obj 0 false, []⟩
        (Value.obj 2 false) Value.none).target =
      (⟨Value.obj 0 false, Value.obj 0 false, []⟩ : MethodWrapper).target
    ∧ pyEq (Value.proxy (Value.obj 2 false)
        (genericWrapperGet parentPlain (Value.obj 2 false) Value.none).target)
        (Value.obj 0 false) =
      pyEq (Value.proxy parentPlain.wrapped parentPlain.target) (Value.obj 0 false)
    ∧ pyHash (Value.proxy (Value.obj 2 false)
        (genericWrapperGet parentPlain (Value.obj 2 false) Value.none).target) =
      pyHash (Value.proxy parentPlain.wrapped parentPlain.target) :=
  claim9_bound_proxy_keeps_anchor parentPlain
    ⟨Value.obj 0 false, Value.obj 0 false, []⟩ (Value.obj 2 false)
    (Value.obj 2 false) Value.none Value.none (Value.obj 0 false)
    (by decide) (by decide)

/-- C10: with an absent instance and an original entity that is neither a
classmethod nor a staticmethod object, a bound call with zero positional
arguments raises IndexError extracting the first element, before any
invocation record for the interception callback is produced. -/
theorem claim10_zero_args_index_error
    (bg : BoundGenericWrapper) (bm : BoundMethodWrapper) (kwargs : Kwargs)
    (hg : bg.inst = Value.none)
    (hk : isClassOrStaticMethod bg.parent.wrapped = false)
    (hm : bm.inst = Value.none) :
    boundGenericCall bg [] kwargs = Except.error CallError.indexError
    ∧ boundMethodCall bm [] kwargs = Except.error CallError.indexError
    ∧ (∀ inv : Invocation, boundGenericCall bg [] kwargs ≠ Except.ok inv)
    ∧ (∀ inv : Invocation, boundMethodCall bm [] kwargs ≠ Except.ok inv) := by
  have h1 : boundGenericCall bg [] kwargs = Except.error CallError.indexError := by
    simp [boundGenericCall, hg, hk]
  have h2 : boundMethodCall bm [] kwargs = Except.error CallError.indexError := by
    simp [boundMethodCall, hm]
  refine ⟨h1, h2, ?_, ?_⟩
  · intro inv h
    rw [h1] at h
    exact Except.noConfusion h
  · intro inv h
    rw [h2] at h
    exact Except.noConfusion h

/-- Witness for C10 at concrete bound wrappers called with no positional
arguments. -/
theorem claim10_witness :
    boundGenericCall bgPlain [] [] = Except.error CallError.indexError
    ∧ boundMethodCall bmPlain [] [] = Except.error CallError.indexError
    ∧ (∀ inv : Invocation, boundGenericCall bgPlain [] [] ≠ Except.ok inv)
    ∧ (∀ inv : Invocation, boundMethodCall bmPlain [] [] ≠ Except.ok inv) :=
  claim10_zero_args_index_error bgPlain bmPlain [] rfl rfl rfl

end Wrapt
